import Mathlib

/-
Shallow embedding of the bets4sats crud layer (src/crud.py).

The store holds two row lists mirroring the two SQL tables
(bets4sats.competitions, bets4sats.tickets).  A SQL
`UPDATE ... SET ... WHERE cond` is modelled as a positional map that
rewrites every row satisfying `cond`; its rowcount is `countP cond` on
the pre-state.  A SQL `DELETE ... WHERE cond` is a filter.  `SELECT ...
WHERE id = x` is `find?`.

The crud functions contain read-modify-conditional-write retry loops
(`while True: read; conditional UPDATE; if rowcount: break`).  They are
embedded under sequential (non-interleaved) semantics: with no
concurrent writer between the read and the conditional write, the
conditional write's predicate is satisfied by the row just read, so the
loop terminates after exactly one iteration; the embedding performs that
single iteration.

Python exceptions (assert failures, IndexError, primary-key violations)
are modelled with `Except`; because each `db.execute` autocommits, the
error value carries the store as already mutated by the writes that
preceded the raise.  Timestamps are integers; JSON-encoded columns
(`choices`) are structured values.
-/

structure Choice where
  title : String
  total : Int
deriving DecidableEq

inductive TicketState where
  | INITIAL
  | FUNDED
  | WON_UNPAID
  | WON_PAID
  | WON_PAYMENT_FAILED
  | LOST
  | CANCELLED_UNPAID
  | CANCELLED_PAID
  | CANCELLED_PAYMENT_FAILED
deriving DecidableEq

structure Ticket where
  id : String
  wallet : String
  competition : String
  amount : Int
  reward_target : String
  choice : Int
  state : TicketState
  reward_msat : Int
  reward_failure : String
  reward_payment_hash : String
  time : Int
deriving DecidableEq

structure Competition where
  id : String
  wallet : String
  register_id : String
  name : String
  info : String
  banner : String
  closing_datetime : String
  amount_tickets : Int
  min_bet : Int
  max_bet : Int
  sold : Int
  choices : List Choice
  winning_choice : Int
  state : String
  time : Int
deriving DecidableEq

structure Store where
  competitions : List Competition
  tickets : List Ticket
deriving DecidableEq

/-- Input model of CreateCompetition: `choices` is the parsed list of
titles from the JSON payload. -/
structure CreateCompetition where
  wallet : String
  name : String
  info : String
  banner : String
  closing_datetime : String
  amount_tickets : Int
  min_bet : Int
  max_bet : Int
  choices : List String
deriving DecidableEq

structure UpdateCompetition where
  amount_tickets : Option Int
  closing_datetime : Option String
deriving DecidableEq

def INVOICE_EXPIRY : Int := 15 * 60

def TICKET_PURGE_TIME : Int := INVOICE_EXPIRY + 10

/-- SQL `UPDATE bets4sats.competitions SET ... WHERE cond`: rewrite every
matching row in place. -/
def updCompetitions (s : Store) (cond : Competition → Bool) (f : Competition → Competition) : Store :=
  { s with competitions := s.competitions.map (fun c => if cond c then f c else c) }

/-- SQL `UPDATE bets4sats.tickets SET ... WHERE cond`. -/
def updTickets (s : Store) (cond : Ticket → Bool) (f : Ticket → Ticket) : Store :=
  { s with tickets := s.tickets.map (fun t => if cond t then f t else t) }

def get_competition (s : Store) (competition_id : String) : Option Competition :=
  s.competitions.find? (fun c => decide (c.id = competition_id))

def get_ticket (s : Store) (ticket_id : String) : Option Ticket :=
  s.tickets.find? (fun t => decide (t.id = ticket_id))

/-- The row INSERTed by create_ticket (reward fields zeroed, state INITIAL,
time filled by the column default). -/
def mkTicket (ticket_id wallet competition : String) (amount : Int) (reward_target : String)
    (choice : Int) (now : Int) : Ticket :=
  { id := ticket_id, wallet := wallet, competition := competition, amount := amount,
    reward_target := reward_target, choice := choice, state := TicketState.INITIAL,
    reward_msat := 0, reward_failure := "", reward_payment_hash := "", time := now }

/-- create_ticket: INSERT the INITIAL ticket, then run the decrement CAS
loop (single iteration under sequential semantics), then re-fetch the
ticket.  The conditional UPDATE is gated on the snapshot value of
amount_tickets and on competition state INITIAL; the new value is the
snapshot minus one, with no non-negativity check. -/
def create_ticket (s : Store) (ticket_id wallet competition : String) (amount : Int)
    (reward_target : String) (choice : Int) (now : Int) :
    Except (String × Store) (Store × Ticket) :=
  if s.tickets.any (fun t => decide (t.id = ticket_id)) then
    Except.error ("UNIQUE constraint failed: bets4sats.tickets.id", s)
  else
    let s1 : Store := { s with tickets := s.tickets ++ [mkTicket ticket_id wallet competition amount reward_target choice now] }
    match get_competition s1 competition with
    | none => Except.error ("Could not get competition from ticket being created", s1)
    | some competitiondata =>
      let s2 : Store :=
        if competitiondata.state = "INITIAL" then
          updCompetitions s1
            (fun c => decide (c.id = competition ∧ c.amount_tickets = competitiondata.amount_tickets ∧ c.state = "INITIAL"))
            (fun c => { c with amount_tickets := competitiondata.amount_tickets - 1 })
        else s1
      match get_ticket s2 ticket_id with
      | none => Except.error ("Newly created ticket could not be retrieved", s2)
      | some ticket => Except.ok (s2, ticket)

/-- Expired purge candidate: an INITIAL ticket of the competition older
than now minus the purge window (strict comparison, as in the SQL). -/
def is_expired_initial (competition_id : String) (now : Int) (t : Ticket) : Bool :=
  decide (t.competition = competition_id ∧ t.state = TicketState.INITIAL ∧ t.time < now - TICKET_PURGE_TIME)

/-- purge_expired_tickets: DELETE all expired INITIAL tickets of the
competition; if the delete rowcount is nonzero, restore amount_tickets
by that count via the CAS loop (note: the restore UPDATE has no
competition-state condition). -/
def purge_expired_tickets (s : Store) (competition_id : String) (now : Int) :
    Except (String × Store) Store :=
  let rowcount := s.tickets.countP (is_expired_initial competition_id now)
  let s1 : Store := { s with tickets := s.tickets.filter (fun t => !(is_expired_initial competition_id now t)) }
  if rowcount = 0 then Except.ok s1
  else
    match get_competition s1 competition_id with
    | none => Except.error ("Could not get competition data for tickets being purged", s1)
    | some competitiondata =>
      Except.ok (updCompetitions s1
        (fun c => decide (c.id = competition_id ∧ c.amount_tickets = competitiondata.amount_tickets))
        (fun c => { c with amount_tickets := competitiondata.amount_tickets + (rowcount : Int) }))

/-- Python list mutation `choices[i].total += amount`: a negative index
wraps once from the end; an out-of-range index raises IndexError
(modelled as none). -/
def pyAddTotal (l : List Choice) (i amount : Int) : Option (List Choice) :=
  let j : Int := if i < 0 then (l.length : Int) + i else i
  if 0 ≤ j then
    match l[j.toNat]? with
    | some c => some (l.set j.toNat { c with total := c.total + amount })
    | none => none
  else none

/-- Total in-range version of the choices update, used to state what the
fold does at a valid index. -/
def addAt (l : List Choice) (k : Nat) (amount : Int) : List Choice :=
  match l[k]? with
  | some c => l.set k { c with total := c.total + amount }
  | none => l

/-- set_ticket_funded: CAS the ticket INITIAL to FUNDED (UPDATE gated on
id and old state); when zero rows matched, return silently.  Otherwise
re-fetch the ticket and run the aggregate-fold CAS loop: while the
competition is INITIAL, set sold to the snapshot plus one and fold the
ticket amount into choices at the ticket choice index. -/
def set_ticket_funded (s : Store) (ticket_id : String) : Except (String × Store) Store :=
  let casCond : Ticket → Bool := fun t => decide (t.id = ticket_id ∧ t.state = TicketState.INITIAL)
  let rowcount := s.tickets.countP casCond
  let s1 : Store := updTickets s casCond (fun t => { t with state := TicketState.FUNDED })
  if rowcount = 0 then Except.ok s1
  else
    match get_ticket s1 ticket_id with
    | none => Except.error ("Ticket not found after funding", s1)
    | some ticket =>
      match get_competition s1 ticket.competition with
      | none => Except.error ("Could not get competition from ticket being paid", s1)
      | some competitiondata =>
        if competitiondata.state = "INITIAL" then
          match pyAddTotal competitiondata.choices ticket.choice ticket.amount with
          | none => Except.error ("IndexError: list index out of range", s1)
          | some newChoices =>
            Except.ok (updCompetitions s1
              (fun c => decide (c.id = ticket.competition ∧ c.sold = competitiondata.sold ∧ c.state = "INITIAL"))
              (fun c => { c with sold := competitiondata.sold + 1, choices := newChoices }))
        else Except.ok s1

/-- The row INSERTed by create_competition: sold 0, winning_choice -1,
state INITIAL, per-title choices with total 0. -/
def mkCompetition (competition_id register_id : String) (data : CreateCompetition) (now : Int) :
    Competition :=
  { id := competition_id, wallet := data.wallet, register_id := register_id,
    name := data.name, info := data.info, banner := data.banner,
    closing_datetime := data.closing_datetime, amount_tickets := data.amount_tickets,
    min_bet := data.min_bet, max_bet := data.max_bet, sold := 0,
    choices := data.choices.map (fun title => { title := title, total := 0 }),
    winning_choice := -1, state := "INITIAL", time := now }

def create_competition (s : Store) (competition_id register_id : String)
    (data : CreateCompetition) (now : Int) : Except (String × Store) (Store × Competition) :=
  if s.competitions.any (fun c => decide (c.id = competition_id)) then
    Except.error ("UNIQUE constraint failed: bets4sats.competitions.id", s)
  else
    let s1 : Store := { s with competitions := s.competitions ++ [mkCompetition competition_id register_id data now] }
    match get_competition s1 competition_id with
    | none => Except.error ("Newly created competition could not be retrieved", s1)
    | some competition => Except.ok (s1, competition)

/-- update_competition: when neither optional field is provided, read
back; otherwise a single UPDATE of the provided fields gated on id and
state INITIAL, returning none when the rowcount was zero. -/
def update_competition (s : Store) (competition_id : String) (data : UpdateCompetition) :
    Store × Option Competition :=
  if data.amount_tickets = none ∧ data.closing_datetime = none then
    (s, get_competition s competition_id)
  else
    let cond : Competition → Bool := fun c => decide (c.id = competition_id ∧ c.state = "INITIAL")
    let rowcount := s.competitions.countP cond
    let s1 := updCompetitions s cond (fun c =>
      { c with amount_tickets := data.amount_tickets.getD c.amount_tickets,
               closing_datetime := data.closing_datetime.getD c.closing_datetime })
    if rowcount = 0 then (s1, none) else (s1, get_competition s1 competition_id)

/-- set_winning_choice: unconditional UPDATE of winning_choice by id (no
state condition). -/
def set_winning_choice (s : Store) (competition_id : String) (winning_choice : Int) : Store :=
  updCompetitions s (fun c => decide (c.id = competition_id))
    (fun c => { c with winning_choice := winning_choice })

/-- update_competition_winners: unconditionally persist choices and
winning_choice on the competition, then fan the outcome out over the
tickets still FUNDED: all to CANCELLED_UNPAID when the winning choice is
negative, otherwise matching-choice rows to WON_UNPAID and the other
FUNDED rows to LOST. -/
def update_competition_winners (s : Store) (competition_id : String) (choices : List Choice)
    (winning_choice : Int) : Store :=
  let s1 := updCompetitions s (fun c => decide (c.id = competition_id))
    (fun c => { c with choices := choices, winning_choice := winning_choice })
  if winning_choice < 0 then
    updTickets s1 (fun t => decide (t.competition = competition_id ∧ t.state = TicketState.FUNDED))
      (fun t => { t with state := TicketState.CANCELLED_UNPAID })
  else
    let s2 := updTickets s1
      (fun t => decide (t.competition = competition_id ∧ t.state = TicketState.FUNDED ∧ t.choice = winning_choice))
      (fun t => { t with state := TicketState.WON_UNPAID })
    updTickets s2
      (fun t => decide (t.competition = competition_id ∧ t.state = TicketState.FUNDED ∧ t.choice ≠ winning_choice))
      (fun t => { t with state := TicketState.LOST })

/-- is_competition_payment_complete: true iff no ticket of the
competition matches `state NOT IN` the five listed terminal states. -/
def is_competition_payment_complete (s : Store) (competition_id : String) : Bool :=
  !(s.tickets.any (fun t => decide (t.competition = competition_id ∧
    t.state ∉ [TicketState.CANCELLED_PAID, TicketState.CANCELLED_PAYMENT_FAILED,
      TicketState.WON_PAID, TicketState.WON_PAYMENT_FAILED, TicketState.LOST])))

/-- The per-row effect of the settlement fan-out of
update_competition_winners (composition of its ticket UPDATE
statements). -/
def settleTicket (competition_id : String) (winning_choice : Int) (t : Ticket) : Ticket :=
  if winning_choice < 0 then
    if t.competition = competition_id ∧ t.state = TicketState.FUNDED then
      { t with state := TicketState.CANCELLED_UNPAID }
    else t
  else
    let t1 := if t.competition = competition_id ∧ t.state = TicketState.FUNDED ∧ t.choice = winning_choice then
      { t with state := TicketState.WON_UNPAID } else t
    if t1.competition = competition_id ∧ t1.state = TicketState.FUNDED ∧ t1.choice ≠ winning_choice then
      { t1 with state := TicketState.LOST } else t1

/-- Store persisted by a create_ticket call, whether it returned or
raised (each db.execute autocommits, so writes survive the raise). -/
def exceptStoreT : Except (String × Store) (Store × Ticket) → Store
  | Except.ok r => r.1
  | Except.error e => e.2

/-- Store persisted by a store-returning call, whether it returned or
raised. -/
def exceptStore : Except (String × Store) Store → Store
  | Except.ok s => s
  | Except.error e => e.2

/-- Store of a successful call, none when it raised. -/
def okStore : Except (String × Store) Store → Option Store
  | Except.ok s => some s
  | Except.error _ => none

/-- Concrete capacity-one competition used to exercise the decrement loop. -/
def c1comp : Competition :=
  { id := "c", wallet := "w", register_id := "r", name := "n", info := "i", banner := "b",
    closing_datetime := "cd", amount_tickets := 1, min_bet := 0, max_bet := 100, sold := 0,
    choices := [{ title := "A", total := 0 }, { title := "B", total := 0 }],
    winning_choice := -1, state := "INITIAL", time := 0 }

def c1s0 : Store := { competitions := [c1comp], tickets := [] }

/-- Concrete competition that has left INITIAL. -/
def c5comp : Competition :=
  { id := "c", wallet := "w", register_id := "r", name := "n", info := "i", banner := "b",
    closing_datetime := "cd", amount_tickets := 3, min_bet := 0, max_bet := 100, sold := 2,
    choices := [{ title := "A", total := 7 }, { title := "B", total := 5 }],
    winning_choice := -1, state := "SETTLED", time := 0 }

def c5s : Store := { competitions := [c5comp], tickets := [] }

/-- Concrete INITIAL competition with spare capacity for the funding fold. -/
def w2comp : Competition := { c1comp with amount_tickets := 10 }

def w2t : Ticket := mkTicket "t1" "wa" "c" 5 "rt" 0 0

def w2s : Store := { competitions := [w2comp], tickets := [w2t] }

/-- Concrete FUNDED tickets with choices 0, 1, 0, 1 (the spec settlement
example). -/
def w3t0 : Ticket := { mkTicket "a0" "w" "c" 2 "rt" 0 0 with state := TicketState.FUNDED }

def w3t1 : Ticket := { mkTicket "a1" "w" "c" 3 "rt" 1 0 with state := TicketState.FUNDED }

def w3t2 : Ticket := { mkTicket "a2" "w" "c" 4 "rt" 0 0 with state := TicketState.FUNDED }

def w3t3 : Ticket := { mkTicket "a3" "w" "c" 5 "rt" 1 0 with state := TicketState.FUNDED }

def w3s : Store := { competitions := [c1comp], tickets := [w3t0, w3t1, w3t2, w3t3] }

def w3ch : List Choice := [{ title := "A", total := 6 }, { title := "B", total := 8 }]

/-- Concrete store with one expired INITIAL ticket and one FUNDED ticket. -/
def w6s : Store := { competitions := [c1comp], tickets := [mkTicket "t1" "w" "c" 5 "rt" 0 0, w3t1] }

theorem store_eq_of (a b : Store) (h1 : a.competitions = b.competitions)
    (h2 : a.tickets = b.tickets) : a = b := by
  cases a; cases b; cases h1; cases h2; rfl

theorem find?_map_update {α : Type} (l : List α) (p : α → Bool) (g : α → α)
    (hg : ∀ x, p (g x) = p x) : (l.map g).find? p = (l.find? p).map g := by
  rw [List.find?_map]
  have h : p ∘ g = p := funext hg
  rw [h]

theorem map_update_eq_self {α : Type} (l : List α) (cond : α → Bool) (f : α → α)
    (h : ∀ x ∈ l, cond x = false) :
    (l.map (fun x => if cond x then f x else x)) = l := by
  induction l with
  | nil => rfl
  | cons a t ih =>
    have ha : cond a = false := h a (List.mem_cons_self a t)
    have ht : ∀ x ∈ t, cond x = false := fun x hx => h x (List.mem_cons_of_mem a hx)
    simp [ha, ih ht]

theorem countP_map_update_zero {α : Type} (l : List α) (p : α → Bool) (f : α → α)
    (h : ∀ x, p x = true → p (f x) = false) :
    (l.map (fun x => if p x then f x else x)).countP p = 0 := by
  rw [List.countP_eq_zero]
  intro a ha
  rw [List.mem_map] at ha
  obtain ⟨x, hx, rfl⟩ := ha
  by_cases hp : p x
  · simp [hp, h x hp]
  · simp [hp]

theorem countP_filter_not {α : Type} (l : List α) (p : α → Bool) :
    (l.filter (fun x => !(p x))).countP p = 0 := by
  rw [List.countP_eq_zero]
  intro a ha
  rw [List.mem_filter] at ha
  simpa using ha.2

theorem filter_not_idem {α : Type} (l : List α) (p : α → Bool) :
    (l.filter (fun x => !(p x))).filter (fun x => !(p x)) = l.filter (fun x => !(p x)) := by
  apply List.filter_eq_self.mpr
  intro a ha
  rw [List.mem_filter] at ha
  exact ha.2

theorem countP_zip_map {α : Type} (l : List α) (f : α → α) (P Q : α → Bool)
    (h : ∀ x, P x = true → Q (f x) = true) :
    ((l.zip (l.map f)).filter (fun pr => P pr.1)).countP (fun pr => Q pr.2) = l.countP P := by
  induction l with
  | nil => rfl
  | cons a t ih =>
    by_cases hp : P a
    · simp [List.zip_cons_cons, List.filter_cons, List.countP_cons, hp, h a hp, ih]
    · simp [List.zip_cons_cons, List.filter_cons, List.countP_cons, hp, ih]

theorem get_competition_upd (s : Store) (cond : Competition → Bool) (f : Competition → Competition)
    (hf : ∀ c, (f c).id = c.id) (cid : String) :
    get_competition (updCompetitions s cond f) cid
      = (get_competition s cid).map (fun c => if cond c then f c else c) := by
  unfold get_competition updCompetitions
  apply find?_map_update
  intro x
  by_cases h : cond x <;> simp [h, hf]

theorem get_ticket_upd (s : Store) (cond : Ticket → Bool) (f : Ticket → Ticket)
    (hf : ∀ t, (f t).id = t.id) (tid : String) :
    get_ticket (updTickets s cond f) tid
      = (get_ticket s tid).map (fun t => if cond t then f t else t) := by
  unfold get_ticket updTickets
  apply find?_map_update
  intro x
  by_cases h : cond x <;> simp [h, hf]

/-- Claim C10: set_ticket_funded called with a ticket id absent from the
store returns normally as a silent no-op, leaving the store unchanged. -/
theorem C10_missing_ticket_noop (s : Store) (tid : String) (h : get_ticket s tid = none) :
    set_ticket_funded s tid = Except.ok s := by
  have hall : ∀ t ∈ s.tickets, ¬ ((fun x => decide (x.id = tid)) t = true) := by
    unfold get_ticket at h
    exact List.find?_eq_none.mp h
  have hcond : ∀ t ∈ s.tickets,
      (fun x => decide (x.id = tid ∧ x.state = TicketState.INITIAL)) t = false := by
    intro t ht
    have h2 := hall t ht
    simp only [decide_eq_true_eq] at h2
    simp only [decide_eq_false_iff_not]
    exact fun hc => h2 hc.1
  have hcount : s.tickets.countP (fun t => decide (t.id = tid ∧ t.state = TicketState.INITIAL)) = 0 := by
    rw [List.countP_eq_zero]
    intro a ha
    simp [hcond a ha]
  have hmap : updTickets s (fun t => decide (t.id = tid ∧ t.state = TicketState.INITIAL))
      (fun t => { t with state := TicketState.FUNDED }) = s := by
    apply store_eq_of
    · rfl
    · exact map_update_eq_self _ _ _ hcond
  simp only [set_ticket_funded, hcount, hmap, if_pos rfl]
  simp

/-- Witness for C10 at a concrete store holding one unrelated ticket. -/
theorem C10_witness :
    set_ticket_funded { competitions := [c1comp], tickets := [mkTicket "u" "w" "c" 2 "rt" 0 0] } "ghost"
      = Except.ok { competitions := [c1comp], tickets := [mkTicket "u" "w" "c" 2 "rt" 0 0] } :=
  C10_missing_ticket_noop { competitions := [c1comp], tickets := [mkTicket "u" "w" "c" 2 "rt" 0 0] } "ghost" (by decide)

/-- Claim C8: is_competition_payment_complete is true iff every ticket of
the competition has reached one of the five terminal states, equivalently
iff no ticket of the competition remains in a non-terminal state. -/
theorem C8_payment_complete_iff (s : Store) (cid : String) :
    (is_competition_payment_complete s cid = true ↔
      ∀ t ∈ s.tickets, t.competition = cid →
        t.state ∈ [TicketState.CANCELLED_PAID, TicketState.CANCELLED_PAYMENT_FAILED,
          TicketState.WON_PAID, TicketState.WON_PAYMENT_FAILED, TicketState.LOST])
    ∧ (is_competition_payment_complete s cid = true ↔
      ¬ ∃ t ∈ s.tickets, t.competition = cid ∧
        t.state ∈ [TicketState.INITIAL, TicketState.FUNDED,
          TicketState.WON_UNPAID, TicketState.CANCELLED_UNPAID]) := by
  have hstate : ∀ st : TicketState,
      st ∉ [TicketState.CANCELLED_PAID, TicketState.CANCELLED_PAYMENT_FAILED,
        TicketState.WON_PAID, TicketState.WON_PAYMENT_FAILED, TicketState.LOST] ↔
      st ∈ [TicketState.INITIAL, TicketState.FUNDED,
        TicketState.WON_UNPAID, TicketState.CANCELLED_UNPAID] := by
    intro st
    cases st <;> decide
  have hmain : is_competition_payment_complete s cid = true ↔
      ∀ t ∈ s.tickets, t.competition = cid →
        t.state ∈ [TicketState.CANCELLED_PAID, TicketState.CANCELLED_PAYMENT_FAILED,
          TicketState.WON_PAID, TicketState.WON_PAYMENT_FAILED, TicketState.LOST] := by
    unfold is_competition_payment_complete
    rw [Bool.not_eq_true', List.any_eq_false]
    constructor
    · intro h t ht hc
      have h2 := h t ht
      simp only [decide_eq_true_eq, not_and, not_not] at h2
      exact h2 hc
    · intro h t ht
      simp only [decide_eq_true_eq, not_and, not_not]
      exact h t ht
  refine ⟨hmain, hmain.trans ?_⟩
  constructor
  · intro h hex
    obtain ⟨t, ht, hc, hst⟩ := hex
    have := h t ht hc
    rw [← hstate] at hst
    exact hst this
  · intro h t ht hc
    by_contra hnot
    exact h ⟨t, ht, hc, (hstate t.state).mp hnot⟩

/-- Witness for C8: a competition whose tickets are all terminal reports
payment-complete. -/
theorem C8_witness :
    is_competition_payment_complete
      { competitions := [c1comp],
        tickets := [{ mkTicket "t1" "w" "c" 2 "rt" 0 0 with state := TicketState.WON_PAID },
          { mkTicket "t2" "w" "c" 3 "rt" 1 0 with state := TicketState.LOST },
          { mkTicket "t3" "w" "c" 4 "rt" 0 0 with state := TicketState.CANCELLED_PAID }] } "c" = true :=
  (C8_payment_complete_iff
    { competitions := [c1comp],
      tickets := [{ mkTicket "t1" "w" "c" 2 "rt" 0 0 with state := TicketState.WON_PAID },
        { mkTicket "t2" "w" "c" 3 "rt" 1 0 with state := TicketState.LOST },
        { mkTicket "t3" "w" "c" 4 "rt" 0 0 with state := TicketState.CANCELLED_PAID }] } "c").1.mpr
    (by decide)

/-- Claim C9: create_competition with a fresh id inserts, and get_competition
returns, a competition pairing each input title with total 0, with
winning_choice -1, sold 0 and state INITIAL. -/
theorem C9_roundtrip (s : Store) (cid rid : String) (data : CreateCompetition) (now : Int)
    (h : ∀ c ∈ s.competitions, c.id ≠ cid) :
    create_competition s cid rid data now =
      Except.ok ({ s with competitions := s.competitions ++ [mkCompetition cid rid data now] },
        mkCompetition cid rid data now)
    ∧ get_competition { s with competitions := s.competitions ++ [mkCompetition cid rid data now] } cid
        = some (mkCompetition cid rid data now)
    ∧ (mkCompetition cid rid data now).choices
        = data.choices.map (fun title => { title := title, total := 0 })
    ∧ (mkCompetition cid rid data now).winning_choice = -1
    ∧ (mkCompetition cid rid data now).sold = 0
    ∧ (mkCompetition cid rid data now).state = "INITIAL" := by
  have hany : s.competitions.any (fun c => decide (c.id = cid)) = false := by
    rw [List.any_eq_false]
    intro c hc
    simp [h c hc]
  have hfind : get_competition { s with competitions := s.competitions ++ [mkCompetition cid rid data now] } cid
      = some (mkCompetition cid rid data now) := by
    unfold get_competition
    rw [List.find?_append]
    have h1 : s.competitions.find? (fun c => decide (c.id = cid)) = none := by
      rw [List.find?_eq_none]
      intro c hc
      simp [h c hc]
    rw [h1]
    simp [List.find?, mkCompetition]
  refine ⟨?_, hfind, rfl, rfl, rfl, rfl⟩
  simp only [create_competition, hany, Bool.false_eq_true, if_false, hfind]

/-- Witness for C9 on the spec round-trip example with titles A and B. -/
theorem C9_witness :
    create_competition { competitions := [], tickets := [] } "c9" "r9"
        { wallet := "w", name := "n", info := "i", banner := "b", closing_datetime := "cd",
          amount_tickets := 10, min_bet := 1, max_bet := 5, choices := ["A", "B"] } 0 =
      Except.ok ({ competitions := [mkCompetition "c9" "r9"
          { wallet := "w", name := "n", info := "i", banner := "b", closing_datetime := "cd",
            amount_tickets := 10, min_bet := 1, max_bet := 5, choices := ["A", "B"] } 0], tickets := [] },
        mkCompetition "c9" "r9"
          { wallet := "w", name := "n", info := "i", banner := "b", closing_datetime := "cd",
            amount_tickets := 10, min_bet := 1, max_bet := 5, choices := ["A", "B"] } 0)
    ∧ (mkCompetition "c9" "r9"
        { wallet := "w", name := "n", info := "i", banner := "b", closing_datetime := "cd",
          amount_tickets := 10, min_bet := 1, max_bet := 5, choices := ["A", "B"] } 0).choices
        = [{ title := "A", total := 0 }, { title := "B", total := 0 }]
    ∧ (mkCompetition "c9" "r9"
        { wallet := "w", name := "n", info := "i", banner := "b", closing_datetime := "cd",
          amount_tickets := 10, min_bet := 1, max_bet := 5, choices := ["A", "B"] } 0).winning_choice = -1 := by
  have h := C9_roundtrip { competitions := [], tickets := [] } "c9" "r9"
    { wallet := "w", name := "n", info := "i", banner := "b", closing_datetime := "cd",
      amount_tickets := 10, min_bet := 1, max_bet := 5, choices := ["A", "B"] } 0
    (by intro c hc; simp at hc)
  exact ⟨h.1, by decide, h.2.2.2.1⟩

/-- Claim C1 (code bug evidence): on a capacity-one INITIAL competition,
two sequential create_ticket calls both succeed and drive amount_tickets
to -1: the decrement CAS has no non-negativity precondition, so the
number of successful decrements exceeds the capacity. -/
theorem C1_capacity_overrun :
    c1comp.amount_tickets = 1 ∧ c1comp.state = "INITIAL" ∧
    ((create_ticket c1s0 "t1" "w1" "c" 5 "r1" 0 0).bind
        (fun r => create_ticket r.1 "t2" "w2" "c" 5 "r2" 1 0)).toOption.bind
      (fun r => (get_competition r.1 "c").map Competition.amount_tickets) = some (-1) := by
  refine ⟨rfl, rfl, ?_⟩
  decide

/-- Claim C4 (counterexample): create_ticket on a store without the
competition raises, but the already-INSERTed ticket row persists, so the
store is not left unchanged. -/
theorem C4_counterexample :
    create_ticket { competitions := [], tickets := [] } "t1" "w1" "c1" 5 "rt" 0 0
      = Except.error ("Could not get competition from ticket being created",
          { competitions := [], tickets := [mkTicket "t1" "w1" "c1" 5 "rt" 0 0] })
    ∧ ({ competitions := [], tickets := [mkTicket "t1" "w1" "c1" 5 "rt" 0 0] } : Store)
        ≠ { competitions := [], tickets := [] } := by
  refine ⟨rfl, ?_⟩
  decide

/-- Claim C4 (amended): create_ticket with a fresh ticket id and a
nonexistent competition aborts with an error, but the failed call leaves
the inserted INITIAL ticket row persisted in the store. -/
theorem C4_amended (s : Store) (tid w cid : String) (amt : Int) (rt : String) (ch now : Int)
    (h1 : get_competition s cid = none) (h2 : ∀ t ∈ s.tickets, t.id ≠ tid) :
    create_ticket s tid w cid amt rt ch now =
      Except.error ("Could not get competition from ticket being created",
        { s with tickets := s.tickets ++ [mkTicket tid w cid amt rt ch now] }) := by
  have hany : s.tickets.any (fun t => decide (t.id = tid)) = false := by
    rw [List.any_eq_false]
    intro t ht
    simp [h2 t ht]
  have h3 : get_competition { s with tickets := s.tickets ++ [mkTicket tid w cid amt rt ch now] } cid
      = none := h1
  simp only [create_ticket, hany, Bool.false_eq_true, if_false, h3]

/-- Witness for C4 amended at a concrete empty store. -/
theorem C4_witness :
    create_ticket { competitions := [], tickets := [] } "t9" "w9" "c9" 7 "rt9" 1 3
      = Except.error ("Could not get competition from ticket being created",
        { competitions := [], tickets := [mkTicket "t9" "w9" "c9" 7 "rt9" 1 3] }) :=
  C4_amended { competitions := [], tickets := [] } "t9" "w9" "c9" 7 "rt9" 1 3 (by decide)
    (by intro t ht; simp at ht)

/-- Claim C5 (counterexample): set_winning_choice mutates winning_choice
of a competition whose state is not INITIAL, so aggregates are not
immutable once the competition leaves INITIAL. -/
theorem C5_counterexample :
    c5comp.state ≠ "INITIAL"
    ∧ get_competition c5s "c" = some c5comp
    ∧ c5comp.winning_choice = -1
    ∧ (get_competition (set_winning_choice c5s "c" 3) "c").map Competition.winning_choice
        = some 3 := by
  refine ⟨by decide, rfl, rfl, ?_⟩
  decide

theorem purge_noop_of_no_expired (s : Store) (cid : String) (now : Int)
    (h : s.tickets.countP (is_expired_initial cid now) = 0) :
    purge_expired_tickets s cid now = Except.ok s := by
  have hfilter : s.tickets.filter (fun t => !(is_expired_initial cid now t)) = s.tickets := by
    apply List.filter_eq_self.mpr
    intro a ha
    have h2 := List.countP_eq_zero.mp h a ha
    simpa using h2
  simp only [purge_expired_tickets, h, hfilter]
  simp

/-- Claim C6: purge deletes exactly the expired INITIAL tickets of the
competition, restores amount_tickets by exactly the deleted count, is a
complete no-op when nothing was deleted, and a second back-to-back run
is a no-op. -/
theorem C6_purge_exact (s : Store) (cid : String) (now : Int) (comp : Competition)
    (hc : get_competition s cid = some comp) :
    (okStore (purge_expired_tickets s cid now)).map Store.tickets
        = some (s.tickets.filter (fun t => !(is_expired_initial cid now t)))
    ∧ ((okStore (purge_expired_tickets s cid now)).bind (fun x => get_competition x cid)).map
          Competition.amount_tickets
        = some (comp.amount_tickets + (s.tickets.countP (is_expired_initial cid now) : Int))
    ∧ (s.tickets.countP (is_expired_initial cid now) = 0 →
        purge_expired_tickets s cid now = Except.ok s)
    ∧ (okStore (purge_expired_tickets s cid now)).bind
          (fun x => okStore (purge_expired_tickets x cid now))
        = okStore (purge_expired_tickets s cid now) := by
  by_cases hn : s.tickets.countP (is_expired_initial cid now) = 0
  · have hres := purge_noop_of_no_expired s cid now hn
    have hfilter : s.tickets.filter (fun t => !(is_expired_initial cid now t)) = s.tickets := by
      apply List.filter_eq_self.mpr
      intro a ha
      have h2 := List.countP_eq_zero.mp hn a ha
      simpa using h2
    refine ⟨by simp [okStore, hres, hfilter], ?_, fun _ => hres, by simp [okStore, hres]⟩
    simp [okStore, hres, hc, hn]
  · have hc1 : get_competition { s with tickets := s.tickets.filter (fun t => !(is_expired_initial cid now t)) } cid
        = some comp := hc
    have hcomp_id : comp.id = cid := by
      unfold get_competition at hc
      have h2 := List.find?_some hc
      simpa using h2
    have hres : purge_expired_tickets s cid now
        = Except.ok (updCompetitions { s with tickets := s.tickets.filter (fun t => !(is_expired_initial cid now t)) }
            (fun c => decide (c.id = cid ∧ c.amount_tickets = comp.amount_tickets))
            (fun c => { c with amount_tickets := comp.amount_tickets + (s.tickets.countP (is_expired_initial cid now) : Int) })) := by
      simp only [purge_expired_tickets, hn, if_false, hc1]
    have hget2 : get_competition (updCompetitions { s with tickets := s.tickets.filter (fun t => !(is_expired_initial cid now t)) }
          (fun c => decide (c.id = cid ∧ c.amount_tickets = comp.amount_tickets))
          (fun c => { c with amount_tickets := comp.amount_tickets + (s.tickets.countP (is_expired_initial cid now) : Int) })) cid
        = some { comp with amount_tickets := comp.amount_tickets + (s.tickets.countP (is_expired_initial cid now) : Int) } := by
      rw [get_competition_upd]
      · rw [hc1]
        simp [hcomp_id]
      · intro c
        rfl
    have hnoop2 : purge_expired_tickets (updCompetitions { s with tickets := s.tickets.filter (fun t => !(is_expired_initial cid now t)) }
          (fun c => decide (c.id = cid ∧ c.amount_tickets = comp.amount_tickets))
          (fun c => { c with amount_tickets := comp.amount_tickets + (s.tickets.countP (is_expired_initial cid now) : Int) })) cid now
        = Except.ok (updCompetitions { s with tickets := s.tickets.filter (fun t => !(is_expired_initial cid now t)) }
            (fun c => decide (c.id = cid ∧ c.amount_tickets = comp.amount_tickets))
            (fun c => { c with amount_tickets := comp.amount_tickets + (s.tickets.countP (is_expired_initial cid now) : Int) })) := by
      apply purge_noop_of_no_expired
      exact countP_filter_not s.tickets (is_expired_initial cid now)
    refine ⟨by rw [hres]; rfl, ?_, fun h0 => absurd h0 hn, ?_⟩
    · rw [hres]
      simp only [okStore, Option.some_bind]
      rw [hget2]
      rfl
    · rw [hres]
      simp only [okStore, Option.some_bind]
      rw [hnoop2]

/-- Witness for C6 on a store with one expired INITIAL ticket: the
expired ticket is deleted, inventory is restored by one, and a second
run is a no-op. -/
theorem C6_witness :
    (okStore (purge_expired_tickets w6s "c" 2000)).map Store.tickets
        = some (w6s.tickets.filter (fun t => !(is_expired_initial "c" 2000 t)))
    ∧ ((okStore (purge_expired_tickets w6s "c" 2000)).bind (fun x => get_competition x "c")).map
          Competition.amount_tickets
        = some (c1comp.amount_tickets + (w6s.tickets.countP (is_expired_initial "c" 2000) : Int))
    ∧ (okStore (purge_expired_tickets w6s "c" 2000)).bind
          (fun x => okStore (purge_expired_tickets x "c" 2000))
        = okStore (purge_expired_tickets w6s "c" 2000) := by
  have h := C6_purge_exact w6s "c" 2000 c1comp (by decide)
  exact ⟨h.1, h.2.1, h.2.2.2⟩

theorem update_winners_tickets (s : Store) (cid : String) (ch : List Choice) (w : Int) :
    (update_competition_winners s cid ch w).tickets = s.tickets.map (settleTicket cid w) := by
  unfold update_competition_winners updTickets updCompetitions
  by_cases hw : w < 0
  · simp only [if_pos hw]
    apply List.map_congr_left
    intro t _
    by_cases h1 : t.competition = cid ∧ t.state = TicketState.FUNDED <;>
      simp [settleTicket, hw, h1]
  · simp only [if_neg hw, List.map_map]
    apply List.map_congr_left
    intro t _
    by_cases hA : t.competition = cid
    · by_cases hB : t.state = TicketState.FUNDED
      · by_cases hC : t.choice = w <;>
          simp [settleTicket, hw, hA, hB, hC, Function.comp]
      · simp [settleTicket, hw, hA, hB, Function.comp]
    · simp [settleTicket, hw, hA, Function.comp]

theorem update_winners_competitions (s : Store) (cid : String) (ch : List Choice) (w : Int) :
    (update_competition_winners s cid ch w).competitions
      = s.competitions.map (fun c => if decide (c.id = cid) then { c with choices := ch, winning_choice := w } else c) := by
  unfold update_competition_winners updTickets updCompetitions
  by_cases hw : w < 0 <;> simp [hw]

theorem settleTicket_idem (cid : String) (w : Int) (t : Ticket) :
    settleTicket cid w (settleTicket cid w t) = settleTicket cid w t := by
  by_cases hw : w < 0
  · by_cases hA : t.competition = cid
    · by_cases hB : t.state = TicketState.FUNDED <;> simp [settleTicket, hw, hA, hB]
    · simp [settleTicket, hw, hA]
  · by_cases hA : t.competition = cid
    · by_cases hB : t.state = TicketState.FUNDED
      · by_cases hC : t.choice = w <;> simp [settleTicket, hw, hA, hB, hC]
      · simp [settleTicket, hw, hA, hB]
    · simp [settleTicket, hw, hA]

/-- Claim C3: after update_competition_winners, every previously FUNDED
ticket of the competition ends in the state determined by the winning
choice (CANCELLED_UNPAID when negative, otherwise WON_UNPAID on a match
and LOST on a mismatch), and the number of previously FUNDED tickets
that end in WON_UNPAID, LOST or CANCELLED_UNPAID equals the number of
previously FUNDED tickets. -/
theorem C3_settlement (s : Store) (cid : String) (ch : List Choice) (w : Int) :
    (∀ i : Nat, ∀ t : Ticket, s.tickets[i]? = some t → t.competition = cid →
        t.state = TicketState.FUNDED →
        (update_competition_winners s cid ch w).tickets[i]? =
          some { t with state := if w < 0 then TicketState.CANCELLED_UNPAID
                                 else if t.choice = w then TicketState.WON_UNPAID
                                 else TicketState.LOST })
    ∧ ((s.tickets.zip (update_competition_winners s cid ch w).tickets).filter
          (fun pr => decide (pr.1.competition = cid ∧ pr.1.state = TicketState.FUNDED))).countP
          (fun pr => decide (pr.2.state = TicketState.WON_UNPAID ∨ pr.2.state = TicketState.LOST
            ∨ pr.2.state = TicketState.CANCELLED_UNPAID))
        = s.tickets.countP (fun t => decide (t.competition = cid ∧ t.state = TicketState.FUNDED)) := by
  constructor
  · intro i t hi hcomp hst
    rw [update_winners_tickets, List.getElem?_map, hi, Option.map_some']
    congr 1
    by_cases hw : w < 0
    · simp [settleTicket, hw, hcomp, hst]
    · by_cases hch : t.choice = w
      · simp [settleTicket, hw, hcomp, hst, hch]
      · simp [settleTicket, hw, hcomp, hst, hch]
  · rw [update_winners_tickets]
    exact countP_zip_map s.tickets (settleTicket cid w)
      (fun x => decide (x.competition = cid ∧ x.state = TicketState.FUNDED))
      (fun x => decide (x.state = TicketState.WON_UNPAID ∨ x.state = TicketState.LOST
        ∨ x.state = TicketState.CANCELLED_UNPAID))
      (by
        intro x hx
        simp only [decide_eq_true_eq] at hx
        by_cases hw : w < 0
        · simp [settleTicket, hw, hx.1, hx.2]
        · by_cases hch : x.choice = w <;> simp [settleTicket, hw, hx.1, hx.2, hch])

/-- Witness for C3 on four FUNDED tickets with choices 0, 1, 0, 1 and
winning choice 1: position 1 becomes WON_UNPAID and every previously
FUNDED ticket ends resolved. -/
theorem C3_witness :
    (update_competition_winners w3s "c" w3ch 1).tickets[1]?
        = some { w3t1 with state := TicketState.WON_UNPAID }
    ∧ ((w3s.tickets.zip (update_competition_winners w3s "c" w3ch 1).tickets).filter
          (fun pr => decide (pr.1.competition = "c" ∧ pr.1.state = TicketState.FUNDED))).countP
          (fun pr => decide (pr.2.state = TicketState.WON_UNPAID ∨ pr.2.state = TicketState.LOST
            ∨ pr.2.state = TicketState.CANCELLED_UNPAID))
        = w3s.tickets.countP (fun t => decide (t.competition = "c" ∧ t.state = TicketState.FUNDED)) := by
  have h := C3_settlement w3s "c" w3ch 1
  refine ⟨?_, h.2⟩
  have h1 := h.1 1 w3t1 rfl rfl rfl
  rw [h1]
  rfl

/-- Claim C7: the settlement fan-out is a per-row map that leaves every
ticket not currently FUNDED (or of another competition) entirely
unchanged, changes no ticket field other than state, and re-invoking
update_competition_winners with the same arguments is idempotent. -/
theorem C7_frame_idempotent (s : Store) (cid : String) (ch : List Choice) (w : Int) :
    (update_competition_winners s cid ch w).tickets = s.tickets.map (settleTicket cid w)
    ∧ (∀ t : Ticket, ¬(t.competition = cid ∧ t.state = TicketState.FUNDED) →
        settleTicket cid w t = t)
    ∧ (∀ t : Ticket, (settleTicket cid w t).id = t.id
        ∧ (settleTicket cid w t).wallet = t.wallet
        ∧ (settleTicket cid w t).competition = t.competition
        ∧ (settleTicket cid w t).amount = t.amount
        ∧ (settleTicket cid w t).reward_target = t.reward_target
        ∧ (settleTicket cid w t).choice = t.choice
        ∧ (settleTicket cid w t).reward_msat = t.reward_msat
        ∧ (settleTicket cid w t).reward_failure = t.reward_failure
        ∧ (settleTicket cid w t).reward_payment_hash = t.reward_payment_hash
        ∧ (settleTicket cid w t).time = t.time)
    ∧ update_competition_winners (update_competition_winners s cid ch w) cid ch w
        = update_competition_winners s cid ch w := by
  refine ⟨update_winners_tickets s cid ch w, ?_, ?_, ?_⟩
  · intro t hn
    by_cases hw : w < 0
    · by_cases hA : t.competition = cid
      · by_cases hB : t.state = TicketState.FUNDED
        · exact absurd ⟨hA, hB⟩ hn
        · simp [settleTicket, hw, hA, hB]
      · simp [settleTicket, hw, hA]
    · by_cases hA : t.competition = cid
      · by_cases hB : t.state = TicketState.FUNDED
        · exact absurd ⟨hA, hB⟩ hn
        · simp [settleTicket, hw, hA, hB]
      · simp [settleTicket, hw, hA]
  · intro t
    by_cases hw : w < 0
    · by_cases h1 : t.competition = cid ∧ t.state = TicketState.FUNDED <;>
        simp [settleTicket, hw, h1]
    · by_cases h1 : t.competition = cid ∧ t.state = TicketState.FUNDED ∧ t.choice = w
      · simp [settleTicket, hw, h1]
      · by_cases h2 : t.competition = cid ∧ t.state = TicketState.FUNDED ∧ t.choice ≠ w <;>
          simp [settleTicket, hw, h1, h2]
  · apply store_eq_of
    · rw [update_winners_competitions, update_winners_competitions, List.map_map]
      apply List.map_congr_left
      intro c _
      by_cases h : c.id = cid <;> simp [h, Function.comp]
    · rw [update_winners_tickets, update_winners_tickets, List.map_map]
      apply List.map_congr_left
      intro t _
      exact settleTicket_idem cid w t

/-- Witness for C7 on the concrete settlement example. -/
theorem C7_witness :
    (update_competition_winners w3s "c" w3ch 1).tickets = w3s.tickets.map (settleTicket "c" 1)
    ∧ settleTicket "c" 1 (mkTicket "x" "w" "c" 2 "rt" 0 0) = mkTicket "x" "w" "c" 2 "rt" 0 0
    ∧ (settleTicket "c" 1 w3t0).amount = w3t0.amount
    ∧ update_competition_winners (update_competition_winners w3s "c" w3ch 1) "c" w3ch 1
        = update_competition_winners w3s "c" w3ch 1 := by
  have h := C7_frame_idempotent w3s "c" w3ch 1
  exact ⟨h.1, h.2.1 (mkTicket "x" "w" "c" 2 "rt" 0 0) (by decide), (h.2.2.1 w3t0).2.2.2.1, h.2.2.2⟩

theorem pyAddTotal_in_range (l : List Choice) (i amount : Int) (h0 : 0 ≤ i)
    (h1 : i < (l.length : Int)) :
    pyAddTotal l i amount = some (addAt l i.toNat amount) := by
  have hneg : ¬ i < 0 := by omega
  have hk : i.toNat < l.length := by omega
  simp only [pyAddTotal, addAt, if_neg hneg, if_pos h0]
  rw [List.getElem?_eq_getElem hk]

/-- Claim C2: the first set_ticket_funded on an INITIAL ticket of an
INITIAL competition moves the ticket to FUNDED, increments sold by
exactly one and folds the ticket amount into the choices entry at the
ticket choice index; the call succeeds and any subsequent call is a
complete no-op on the store. -/
theorem C2_funded_exactly_once (s : Store) (tid : String) (t : Ticket) (comp : Competition)
    (ht : get_ticket s tid = some t) (hts : t.state = TicketState.INITIAL)
    (hc : get_competition s t.competition = some comp) (hcs : comp.state = "INITIAL")
    (h0 : 0 ≤ t.choice) (h1 : t.choice < (comp.choices.length : Int)) :
    (okStore (set_ticket_funded s tid)).bind (fun x => get_ticket x tid)
        = some { t with state := TicketState.FUNDED }
    ∧ ((okStore (set_ticket_funded s tid)).bind (fun x => get_competition x t.competition)).map
          Competition.sold = some (comp.sold + 1)
    ∧ ((okStore (set_ticket_funded s tid)).bind (fun x => get_competition x t.competition)).map
          Competition.choices = some (addAt comp.choices t.choice.toNat t.amount)
    ∧ (okStore (set_ticket_funded s tid)).bind (fun x => okStore (set_ticket_funded x tid))
        = okStore (set_ticket_funded s tid) := by
  have ht' := ht
  unfold get_ticket at ht'
  have htid : t.id = tid := by
    have h2 := List.find?_some ht'
    simpa using h2
  have hmem : t ∈ s.tickets := List.mem_of_find?_eq_some ht'
  have hc' := hc
  unfold get_competition at hc'
  have hcid : comp.id = t.competition := by
    have h2 := List.find?_some hc'
    simpa using h2
  have hrc : ¬ (s.tickets.countP (fun x => decide (x.id = tid ∧ x.state = TicketState.INITIAL)) = 0) := by
    intro hz
    have h2 := List.countP_eq_zero.mp hz t hmem
    simp [htid, hts] at h2
  have hticket1 : get_ticket (updTickets s
        (fun x => decide (x.id = tid ∧ x.state = TicketState.INITIAL))
        (fun x => { x with state := TicketState.FUNDED })) tid
      = some { t with state := TicketState.FUNDED } := by
    rw [get_ticket_upd]
    · rw [ht, Option.map_some']
      simp [htid, hts]
    · intro x
      rfl
  have hcomp1 : get_competition (updTickets s
        (fun x => decide (x.id = tid ∧ x.state = TicketState.INITIAL))
        (fun x => { x with state := TicketState.FUNDED })) t.competition
      = some comp := hc
  have hpy : pyAddTotal comp.choices t.choice t.amount
      = some (addAt comp.choices t.choice.toNat t.amount) :=
    pyAddTotal_in_range comp.choices t.choice t.amount h0 h1
  have hmain : set_ticket_funded s tid
      = Except.ok (updCompetitions (updTickets s
          (fun x => decide (x.id = tid ∧ x.state = TicketState.INITIAL))
          (fun x => { x with state := TicketState.FUNDED }))
          (fun c => decide (c.id = t.competition ∧ c.sold = comp.sold ∧ c.state = "INITIAL"))
          (fun c => { c with sold := comp.sold + 1, choices := addAt comp.choices t.choice.toNat t.amount })) := by
    simp only [set_ticket_funded, if_neg hrc, hticket1, hcomp1, hcs, if_pos, hpy]
  have hcomp2 : get_competition (updCompetitions (updTickets s
        (fun x => decide (x.id = tid ∧ x.state = TicketState.INITIAL))
        (fun x => { x with state := TicketState.FUNDED }))
        (fun c => decide (c.id = t.competition ∧ c.sold = comp.sold ∧ c.state = "INITIAL"))
        (fun c => { c with sold := comp.sold + 1, choices := addAt comp.choices t.choice.toNat t.amount })) t.competition
      = some { comp with sold := comp.sold + 1, choices := addAt comp.choices t.choice.toNat t.amount } := by
    rw [get_competition_upd]
    · rw [hcomp1, Option.map_some']
      simp [hcid, hcs]
    · intro c
      rfl
  have hsecond : set_ticket_funded (updCompetitions (updTickets s
        (fun x => decide (x.id = tid ∧ x.state = TicketState.INITIAL))
        (fun x => { x with state := TicketState.FUNDED }))
        (fun c => decide (c.id = t.competition ∧ c.sold = comp.sold ∧ c.state = "INITIAL"))
        (fun c => { c with sold := comp.sold + 1, choices := addAt comp.choices t.choice.toNat t.amount })) tid
      = Except.ok (updCompetitions (updTickets s
          (fun x => decide (x.id = tid ∧ x.state = TicketState.INITIAL))
          (fun x => { x with state := TicketState.FUNDED }))
          (fun c => decide (c.id = t.competition ∧ c.sold = comp.sold ∧ c.state = "INITIAL"))
          (fun c => { c with sold := comp.sold + 1, choices := addAt comp.choices t.choice.toNat t.amount })) := by
    have hz : (updCompetitions (updTickets s
          (fun x => decide (x.id = tid ∧ x.state = TicketState.INITIAL))
          (fun x => { x with state := TicketState.FUNDED }))
          (fun c => decide (c.id = t.competition ∧ c.sold = comp.sold ∧ c.state = "INITIAL"))
          (fun c => { c with sold := comp.sold + 1, choices := addAt comp.choices t.choice.toNat t.amount })).tickets.countP
          (fun x => decide (x.id = tid ∧ x.state = TicketState.INITIAL)) = 0 := by
      exact countP_map_update_zero s.tickets _ _ (by intro x hx; simp)
    have hmapid : (updCompetitions (updTickets s
          (fun x => decide (x.id = tid ∧ x.state = TicketState.INITIAL))
          (fun x => { x with state := TicketState.FUNDED }))
          (fun c => decide (c.id = t.competition ∧ c.sold = comp.sold ∧ c.state = "INITIAL"))
          (fun c => { c with sold := comp.sold + 1, choices := addAt comp.choices t.choice.toNat t.amount })).tickets.map
          (fun x => if (fun y => decide (y.id = tid ∧ y.state = TicketState.INITIAL)) x then
            { x with state := TicketState.FUNDED } else x)
        = (updCompetitions (updTickets s
          (fun x => decide (x.id = tid ∧ x.state = TicketState.INITIAL))
          (fun x => { x with state := TicketState.FUNDED }))
          (fun c => decide (c.id = t.competition ∧ c.sold = comp.sold ∧ c.state = "INITIAL"))
          (fun c => { c with sold := comp.sold + 1, choices := addAt comp.choices t.choice.toNat t.amount })).tickets := by
      apply map_update_eq_self
      intro x hx
      have h2 := List.countP_eq_zero.mp hz x hx
      simpa using h2
    simp only [set_ticket_funded, hz]
    rw [if_pos trivial]
    congr 1
    apply store_eq_of
    · rfl
    · exact hmapid
  refine ⟨?_, ?_, ?_, ?_⟩
  · rw [hmain]
    simp only [okStore, Option.some_bind]
    exact hticket1
  · rw [hmain]
    simp only [okStore, Option.some_bind]
    rw [hcomp2]
    rfl
  · rw [hmain]
    simp only [okStore, Option.some_bind]
    rw [hcomp2]
    rfl
  · rw [hmain]
    simp only [okStore, Option.some_bind]
    rw [hsecond]

/-- Witness for C2 on a concrete INITIAL ticket and INITIAL competition. -/
theorem C2_witness :
    (okStore (set_ticket_funded w2s "t1")).bind (fun x => get_ticket x "t1")
        = some { w2t with state := TicketState.FUNDED }
    ∧ ((okStore (set_ticket_funded w2s "t1")).bind (fun x => get_competition x "c")).map
          Competition.sold = some (w2comp.sold + 1)
    ∧ ((okStore (set_ticket_funded w2s "t1")).bind (fun x => get_competition x "c")).map
          Competition.choices = some (addAt w2comp.choices 0 5)
    ∧ (okStore (set_ticket_funded w2s "t1")).bind (fun x => okStore (set_ticket_funded x "t1"))
        = okStore (set_ticket_funded w2s "t1") :=
  C2_funded_exactly_once w2s "t1" w2t w2comp (by decide) (by decide) (by decide) (by decide)
    (by decide) (by decide)

theorem get_competition_upd_nonmatch (s : Store) (cond : Competition → Bool)
    (f : Competition → Competition) (hf : ∀ c, (f c).id = c.id) (cid : String)
    (comp : Competition) (hC : get_competition s cid = some comp)
    (hcond : cond comp = false) :
    get_competition (updCompetitions s cond f) cid = some comp := by
  rw [get_competition_upd s cond f hf cid, hC, Option.map_some', hcond]
  simp

/-- Claim C5 (amended): once a competition has left INITIAL, the three
state-gated operations create_ticket, set_ticket_funded and
update_competition leave its record (hence amount_tickets, sold, choices
and winning_choice) unchanged, whatever their arguments and outcome.
The ungated operations purge_expired_tickets, update_competition_winners
and set_winning_choice can still mutate it. -/
theorem C5_amended (s : Store) (cid : String) (comp : Competition)
    (tid tw tcid : String) (amt : Int) (rt : String) (ch now : Int)
    (tid2 cid3 : String) (d : UpdateCompetition)
    (hC : get_competition s cid = some comp) (hS : comp.state ≠ "INITIAL") :
    get_competition (exceptStoreT (create_ticket s tid tw tcid amt rt ch now)) cid = some comp
    ∧ get_competition (exceptStore (set_ticket_funded s tid2)) cid = some comp
    ∧ get_competition (update_competition s cid3 d).1 cid = some comp := by
  refine ⟨?_, ?_, ?_⟩
  · have hupd : ∀ (l : List Ticket) (amtX : Int),
        get_competition (updCompetitions { s with tickets := l }
          (fun c => decide (c.id = tcid ∧ c.amount_tickets = amtX ∧ c.state = "INITIAL"))
          (fun c => { c with amount_tickets := amtX - 1 })) cid = some comp := by
      intro l amtX
      apply get_competition_upd_nonmatch
      · intro c
        rfl
      · exact hC
      · simp [hS]
    simp only [create_ticket]
    repeat' split
    all_goals first | exact hC | exact hupd _ _
  · have hupd2 : ∀ (tcomp : String) (soldX : Int) (nc : List Choice),
        get_competition (updCompetitions (updTickets s
            (fun x => decide (x.id = tid2 ∧ x.state = TicketState.INITIAL))
            (fun x => { x with state := TicketState.FUNDED }))
          (fun c => decide (c.id = tcomp ∧ c.sold = soldX ∧ c.state = "INITIAL"))
          (fun c => { c with sold := soldX + 1, choices := nc })) cid = some comp := by
      intro tcomp soldX nc
      apply get_competition_upd_nonmatch
      · intro c
        rfl
      · exact hC
      · simp [hS]
    simp only [set_ticket_funded]
    repeat' split
    all_goals first | exact hC | exact hupd2 _ _ _
  · have hupd3 : get_competition (updCompetitions s
          (fun c => decide (c.id = cid3 ∧ c.state = "INITIAL"))
          (fun c => { c with
              amount_tickets := d.amount_tickets.getD c.amount_tickets
              closing_datetime := d.closing_datetime.getD c.closing_datetime })) cid
        = some comp := by
      apply get_competition_upd_nonmatch
      · intro c
        rfl
      · exact hC
      · simp [hS]
    simp only [update_competition]
    repeat' split
    all_goals first | exact hC | exact hupd3

/-- Witness for C5 amended on the concrete SETTLED competition. -/
theorem C5_witness :
    get_competition (exceptStoreT (create_ticket c5s "tx" "w" "c" 2 "rt" 0 0)) "c" = some c5comp
    ∧ get_competition (exceptStore (set_ticket_funded c5s "ty")) "c" = some c5comp
    ∧ get_competition (update_competition c5s "c"
        { amount_tickets := some 9, closing_datetime := none }).1 "c" = some c5comp :=
  C5_amended c5s "c" c5comp "tx" "w" "c" 2 "rt" 0 0 "ty" "c"
    { amount_tickets := some 9, closing_datetime := none } (by decide) (by decide)
